import Mathlib

/-!
Verification development for the cost-estimation engine of the
One-Click Multi-Cloud Provisioner repository
(`src/modules/cost_estimator.py`, class `CostEstimator`).

The module is embedded shallowly:
* Python floats are modelled as exact rationals (`ℚ`);
* Python dict `.get` lookups are modelled as functions into `Option`;
* the constructor's `.lower()` normalization is modelled by `pyLower`;
* the fallible `estimate()` entry point returns `Except String CostBreakdown`,
  mirroring the `ValueError` raised for an unsupported provider.

The embedding models the fallback-only pricing mode: the live pricing
clients (`boto3` / `google.cloud.billing`) are `None` whenever the optional
libraries are unavailable or client construction fails, and in that mode
every price is resolved from the static fallback tables.  (Even on the live
AWS path the code never parses a real price: it assigns the constant `0.05`
placeholder, and the database price is always read from the fallback table.)
-/

/-- Models Python `str.lower()` on one character.  Python's `lower` maps the
basic latin capitals `A`..`Z` (codepoints 65..90) to the corresponding small
letters; the inputs of interest here are ASCII. -/
def lowerChar (c : Char) : Char :=
  if 65 ≤ c.toNat ∧ c.toNat ≤ 90 then Char.ofNat (c.toNat + 32) else c

/-- Models Python `str.lower()` on a string. -/
def pyLower (s : String) : String := String.mk (s.data.map lowerChar)

/-- Two-level dictionary lookup: models Python
`table.get(key, dict()).get(region, default)` as used at every pricing
call site of `CostEstimator`. -/
def dictGet2 (table : String → Option (String → Option ℚ))
    (ty region : String) (d : ℚ) : ℚ :=
  match table ty with
  | none => d
  | some entry => (entry region).getD d

/-- `CostEstimator.AWS_PRICING_FALLBACK`: hourly USD prices per
(instance type, region). -/
def AWS_PRICING_FALLBACK (ty : String) : Option (String → Option ℚ) :=
  if ty = "t3.medium" then
    some (fun r => if r = "us-east-1" then some 0.0416
      else if r = "us-west-2" then some 0.0416 else none)
  else if ty = "t3.large" then
    some (fun r => if r = "us-east-1" then some 0.0832
      else if r = "us-west-2" then some 0.0832 else none)
  else if ty = "db.t3.micro" then
    some (fun r => if r = "us-east-1" then some 0.017
      else if r = "us-west-2" then some 0.017 else none)
  else if ty = "db.t3.small" then
    some (fun r => if r = "us-east-1" then some 0.034
      else if r = "us-west-2" then some 0.034 else none)
  else none

/-- `CostEstimator.GCP_PRICING_FALLBACK`: hourly USD prices per
(instance type, region). -/
def GCP_PRICING_FALLBACK (ty : String) : Option (String → Option ℚ) :=
  if ty = "n1-standard-1" then
    some (fun r => if r = "us-east1" then some 0.0475
      else if r = "us-west1" then some 0.0475 else none)
  else if ty = "n1-standard-2" then
    some (fun r => if r = "us-east1" then some 0.095
      else if r = "us-west1" then some 0.095 else none)
  else if ty = "db-f1-micro" then
    some (fun r => if r = "us-east1" then some 0.015
      else if r = "us-west1" then some 0.015 else none)
  else if ty = "db-g1-small" then
    some (fun r => if r = "us-east1" then some 0.025
      else if r = "us-west1" then some 0.025 else none)
  else none

/-- The `region_map` dictionary of `CostEstimator._get_region`. -/
def region_map (cloud : String) : Option (String → Option String) :=
  if cloud = "aws" then
    some (fun e => if e = "dev" then some "us-east-1"
      else if e = "staging" then some "us-west-2"
      else if e = "prod" then some "us-west-2" else none)
  else if cloud = "gcp" then
    some (fun e => if e = "dev" then some "us-east1"
      else if e = "staging" then some "us-west1"
      else if e = "prod" then some "us-west1" else none)
  else none

/-- `CostEstimator._get_region`: `region_map.get(cloud, dict()).get(env, "us-east-1")`.
Both arguments are the already-lowercased constructor fields. -/
def get_region (cloud env : String) : String :=
  match region_map cloud with
  | none => "us-east-1"
  | some m => (m env).getD "us-east-1"

/-- The `instance_map` dictionary of `CostEstimator._get_instance_type`. -/
def instance_map (cloud : String) : Option (String → Option String) :=
  if cloud = "aws" then
    some (fun e => if e = "dev" then some "t3.medium"
      else if e = "staging" then some "t3.large"
      else if e = "prod" then some "t3.large" else none)
  else if cloud = "gcp" then
    some (fun e => if e = "dev" then some "n1-standard-1"
      else if e = "staging" then some "n1-standard-2"
      else if e = "prod" then some "n1-standard-2" else none)
  else none

/-- `CostEstimator._get_instance_type`. -/
def get_instance_type (cloud env : String) : String :=
  match instance_map cloud with
  | none => "t3.medium"
  | some m => (m env).getD "t3.medium"

/-- The `db_map` dictionary of `CostEstimator._get_db_instance_type`. -/
def db_map (cloud : String) : Option (String → Option String) :=
  if cloud = "aws" then
    some (fun e => if e = "dev" then some "db.t3.micro"
      else if e = "staging" then some "db.t3.small"
      else if e = "prod" then some "db.t3.small" else none)
  else if cloud = "gcp" then
    some (fun e => if e = "dev" then some "db-f1-micro"
      else if e = "staging" then some "db-g1-small"
      else if e = "prod" then some "db-g1-small" else none)
  else none

/-- `CostEstimator._get_db_instance_type`. -/
def get_db_instance_type (cloud env : String) : String :=
  match db_map cloud with
  | none => "db.t3.micro"
  | some m => (m env).getD "db.t3.micro"

/-- The `compute` item of the returned breakdown dictionary. -/
structure ComputeItem where
  instances : Nat
  type : String
  hourly : ℚ
  monthly : ℚ
deriving DecidableEq

/-- The `storage` item of the returned breakdown dictionary. -/
structure StorageItem where
  gb : Nat
  monthly : ℚ
deriving DecidableEq

/-- The `data_transfer` item of the returned breakdown dictionary. -/
structure DataTransferItem where
  monthly : ℚ
deriving DecidableEq

/-- The `database` item of the returned breakdown dictionary;
`type` is `none` exactly when Python stores `None`. -/
structure DatabaseItem where
  enabled : Bool
  type : Option String
  monthly : ℚ
deriving DecidableEq

/-- The dictionary returned by `_estimate_aws_cost` / `_estimate_gcp_cost`. -/
structure CostBreakdown where
  compute : ComputeItem
  storage : StorageItem
  data_transfer : DataTransferItem
  database : DatabaseItem
  total_monthly : ℚ
  total_yearly : ℚ
deriving DecidableEq

/-- `CostEstimator._estimate_aws_cost` in fallback-only mode
(`self.pricing_client is None`); `env` is the lowercased environment field. -/
def estimate_aws_cost (env : String) (enable_db : Bool) : CostBreakdown :=
  let region := get_region "aws" env
  let instance_type := get_instance_type "aws" env
  let num_instances : Nat := if env = "prod" then 2 else 1
  let instance_hourly := dictGet2 AWS_PRICING_FALLBACK instance_type region 0.05
  let compute_monthly := instance_hourly * num_instances * 730
  let storage_gb : Nat := 30 * num_instances
  let storage_monthly : ℚ := (storage_gb : ℚ) * 0.10
  let data_transfer_monthly : ℚ := 10
  let db_type := get_db_instance_type "aws" env
  let db_monthly : ℚ :=
    if enable_db then dictGet2 AWS_PRICING_FALLBACK db_type region 0.017 * 730 else 0
  let storage_gb := if enable_db then storage_gb + 20 else storage_gb
  let storage_monthly :=
    if enable_db then storage_monthly + 20 * 0.115 else storage_monthly
  let total_monthly :=
    compute_monthly + storage_monthly + data_transfer_monthly + db_monthly
  { compute :=
      { instances := num_instances, type := instance_type,
        hourly := instance_hourly, monthly := compute_monthly }
    storage := { gb := storage_gb, monthly := storage_monthly }
    data_transfer := { monthly := data_transfer_monthly }
    database :=
      { enabled := enable_db,
        type := if enable_db then some db_type else none,
        monthly := db_monthly }
    total_monthly := total_monthly
    total_yearly := total_monthly * 12 }

/-- `CostEstimator._estimate_gcp_cost`; `env` is the lowercased
environment field. -/
def estimate_gcp_cost (env : String) (enable_db : Bool) : CostBreakdown :=
  let region := get_region "gcp" env
  let instance_type := get_instance_type "gcp" env
  let num_instances : Nat := if env = "prod" then 2 else 1
  let instance_hourly := dictGet2 GCP_PRICING_FALLBACK instance_type region 0.0475
  let compute_monthly := instance_hourly * num_instances * 730
  let storage_gb : Nat := 30 * num_instances
  let storage_monthly : ℚ := (storage_gb : ℚ) * 0.17
  let data_transfer_monthly : ℚ := 10
  let db_type := get_db_instance_type "gcp" env
  let db_monthly : ℚ :=
    if enable_db then dictGet2 GCP_PRICING_FALLBACK db_type region 0.015 * 730 else 0
  let storage_gb := if enable_db then storage_gb + 20 else storage_gb
  let storage_monthly :=
    if enable_db then storage_monthly + 20 * 0.17 else storage_monthly
  let total_monthly :=
    compute_monthly + storage_monthly + data_transfer_monthly + db_monthly
  { compute :=
      { instances := num_instances, type := instance_type,
        hourly := instance_hourly, monthly := compute_monthly }
    storage := { gb := storage_gb, monthly := storage_monthly }
    data_transfer := { monthly := data_transfer_monthly }
    database :=
      { enabled := enable_db,
        type := if enable_db then some db_type else none,
        monthly := db_monthly }
    total_monthly := total_monthly
    total_yearly := total_monthly * 12 }

/-- `CostEstimator.estimate` on the already-lowercased constructor fields
`self.cloud` and `self.environment`; the `ValueError` branch is modelled as
`Except.error` carrying the formatted message. -/
def estimate_core (cloud env : String) (enable_db : Bool) :
    Except String CostBreakdown :=
  if cloud = "aws" then Except.ok (estimate_aws_cost env enable_db)
  else if cloud = "gcp" then Except.ok (estimate_gcp_cost env enable_db)
  else Except.error ("Unsupported cloud provider: " ++ cloud)

/-- `CostEstimator(cloud, environment, enable_db).estimate()` on raw caller
strings: the constructor lowercases `cloud` and `environment` before any
other use. -/
def estimate (cloud env : String) (enable_db : Bool) :
    Except String CostBreakdown :=
  estimate_core (pyLower cloud) (pyLower env) enable_db

/-- Resource kinds priced by the engine. -/
inductive ResourceKind
  | compute
  | database
deriving DecidableEq

/-- The static fallback table consulted for a provider: `_estimate_aws_cost`
reads `AWS_PRICING_FALLBACK`, `_estimate_gcp_cost` reads
`GCP_PRICING_FALLBACK`. -/
def fallback_table (cloud : String) : String → Option (String → Option ℚ) :=
  if cloud = "aws" then AWS_PRICING_FALLBACK else GCP_PRICING_FALLBACK

/-- The default hourly price hard-coded at each of the four fallback call
sites: AWS compute `0.05`, AWS database `0.017`, GCP compute `0.0475`,
GCP database `0.015`. -/
def fallback_default (cloud : String) (k : ResourceKind) : ℚ :=
  match k with
  | ResourceKind.compute => if cloud = "aws" then 0.05 else 0.0475
  | ResourceKind.database => if cloud = "aws" then 0.017 else 0.015

/-- The fallback price resolution performed inline at the four pricing call
sites: a two-level `.get` into the provider's static table with the
call-site default. -/
def resolve_fallback_price (cloud : String) (k : ResourceKind)
    (ty region : String) : ℚ :=
  dictGet2 (fallback_table cloud) ty region (fallback_default cloud k)

/-! ### Evaluation helpers

Sizing and pricing lookups evaluate by `rfl` on the concrete identifiers the
engine actually produces; the string-literal disequalities below let `simp`
reduce the remaining `if` conditions. -/

@[simp] theorem dev_prod_false : (("dev" : String) = "prod") = False :=
  eq_false (by decide)

@[simp] theorem staging_prod_false : (("staging" : String) = "prod") = False :=
  eq_false (by decide)

@[simp] theorem gcp_aws_false : (("gcp" : String) = "aws") = False :=
  eq_false (by decide)

@[simp] theorem pyLower_dev : pyLower "dev" = "dev" := rfl

@[simp] theorem pyLower_staging : pyLower "staging" = "staging" := rfl

@[simp] theorem pyLower_prod : pyLower "prod" = "prod" := rfl

@[simp] theorem gr_aws_dev : get_region "aws" "dev" = "us-east-1" := rfl

@[simp] theorem gr_aws_staging : get_region "aws" "staging" = "us-west-2" := rfl

@[simp] theorem gr_aws_prod : get_region "aws" "prod" = "us-west-2" := rfl

@[simp] theorem gr_gcp_dev : get_region "gcp" "dev" = "us-east1" := rfl

@[simp] theorem gr_gcp_staging : get_region "gcp" "staging" = "us-west1" := rfl

@[simp] theorem gr_gcp_prod : get_region "gcp" "prod" = "us-west1" := rfl

@[simp] theorem gi_aws_dev : get_instance_type "aws" "dev" = "t3.medium" := rfl

@[simp] theorem gi_aws_staging : get_instance_type "aws" "staging" = "t3.large" := rfl

@[simp] theorem gi_aws_prod : get_instance_type "aws" "prod" = "t3.large" := rfl

@[simp] theorem gi_gcp_dev : get_instance_type "gcp" "dev" = "n1-standard-1" := rfl

@[simp] theorem gi_gcp_staging : get_instance_type "gcp" "staging" = "n1-standard-2" := rfl

@[simp] theorem gi_gcp_prod : get_instance_type "gcp" "prod" = "n1-standard-2" := rfl

@[simp] theorem gd_aws_dev : get_db_instance_type "aws" "dev" = "db.t3.micro" := rfl

@[simp] theorem gd_aws_staging : get_db_instance_type "aws" "staging" = "db.t3.small" := rfl

@[simp] theorem gd_aws_prod : get_db_instance_type "aws" "prod" = "db.t3.small" := rfl

@[simp] theorem gd_gcp_dev : get_db_instance_type "gcp" "dev" = "db-f1-micro" := rfl

@[simp] theorem gd_gcp_staging : get_db_instance_type "gcp" "staging" = "db-g1-small" := rfl

@[simp] theorem gd_gcp_prod : get_db_instance_type "gcp" "prod" = "db-g1-small" := rfl

@[simp] theorem pa_medium (d : ℚ) :
    dictGet2 AWS_PRICING_FALLBACK "t3.medium" "us-east-1" d = 0.0416 := rfl

@[simp] theorem pa_large (d : ℚ) :
    dictGet2 AWS_PRICING_FALLBACK "t3.large" "us-west-2" d = 0.0832 := rfl

@[simp] theorem pa_db_micro (d : ℚ) :
    dictGet2 AWS_PRICING_FALLBACK "db.t3.micro" "us-east-1" d = 0.017 := rfl

@[simp] theorem pa_db_small (d : ℚ) :
    dictGet2 AWS_PRICING_FALLBACK "db.t3.small" "us-west-2" d = 0.034 := rfl

@[simp] theorem pg_n1 (d : ℚ) :
    dictGet2 GCP_PRICING_FALLBACK "n1-standard-1" "us-east1" d = 0.0475 := rfl

@[simp] theorem pg_n2 (d : ℚ) :
    dictGet2 GCP_PRICING_FALLBACK "n1-standard-2" "us-west1" d = 0.095 := rfl

@[simp] theorem pg_db_f1 (d : ℚ) :
    dictGet2 GCP_PRICING_FALLBACK "db-f1-micro" "us-east1" d = 0.015 := rfl

@[simp] theorem pg_db_g1 (d : ℚ) :
    dictGet2 GCP_PRICING_FALLBACK "db-g1-small" "us-west1" d = 0.025 := rfl

/-! ### Lowercasing is idempotent -/

theorem char_toNat_ofNat_add32 (n : Nat) (h1 : 65 ≤ n) (h2 : n ≤ 90) :
    (Char.ofNat (n + 32)).toNat = n + 32 := by
  interval_cases n <;> rfl

theorem lowerChar_idem (c : Char) : lowerChar (lowerChar c) = lowerChar c := by
  unfold lowerChar
  by_cases h : 65 ≤ c.toNat ∧ c.toNat ≤ 90
  · rw [if_pos h, if_neg]
    have h32 := char_toNat_ofNat_add32 c.toNat h.1 h.2
    rw [h32]
    have h1 := h.1
    omega
  · rw [if_neg h, if_neg h]

theorem lower_map_idem (l : List Char) :
    (l.map lowerChar).map lowerChar = l.map lowerChar := by
  induction l with
  | nil => rfl
  | cons a l ih => simp only [List.map_cons, lowerChar_idem, ih]

theorem pyLower_idem (s : String) : pyLower (pyLower s) = pyLower s :=
  congrArg String.mk (lower_map_idem s.data)

/-! ### The claims -/

/-- C1: for every provider in aws/gcp, every tier in dev/staging/prod and
every value of the database flag, the CostBreakdown returned by `estimate`
satisfies `total_yearly = total_monthly * 12` exactly. -/
theorem c1_total_yearly_mul_12 (p t : String) (db : Bool)
    (hp : p = "aws" ∨ p = "gcp")
    (ht : t = "dev" ∨ t = "staging" ∨ t = "prod") :
    ∃ b, estimate p t db = Except.ok b ∧
      b.total_yearly = b.total_monthly * 12 := by
  rcases hp with rfl | rfl <;> rcases ht with rfl | rfl | rfl <;>
    exact ⟨_, rfl, rfl⟩

/-- Witness for C1 at (aws, dev, db enabled). -/
theorem c1_total_yearly_mul_12_witness :
    ∃ b, estimate "aws" "dev" true = Except.ok b ∧
      b.total_yearly = b.total_monthly * 12 :=
  c1_total_yearly_mul_12 "aws" "dev" true (Or.inl rfl) (Or.inl rfl)

/-- C2: for every provider in aws/gcp, tier in dev/staging/prod and database
flag, the compute item has `instances = 2` iff the tier is prod, `instances = 1`
otherwise, and no other instance count is ever produced. -/
theorem c2_instance_count (p t : String) (db : Bool)
    (hp : p = "aws" ∨ p = "gcp")
    (ht : t = "dev" ∨ t = "staging" ∨ t = "prod") :
    ∃ b, estimate p t db = Except.ok b ∧
      (b.compute.instances = 2 ↔ t = "prod") ∧
      (t ≠ "prod" → b.compute.instances = 1) ∧
      (b.compute.instances = 1 ∨ b.compute.instances = 2) := by
  rcases hp with rfl | rfl <;> rcases ht with rfl | rfl | rfl <;>
    exact ⟨_, rfl, by norm_num [estimate_aws_cost, estimate_gcp_cost]⟩

/-- Witness for C2 at (gcp, prod, db disabled). -/
theorem c2_instance_count_witness :
    ∃ b, estimate "gcp" "prod" false = Except.ok b ∧
      (b.compute.instances = 2 ↔ "prod" = "prod") ∧
      ("prod" ≠ "prod" → b.compute.instances = 1) ∧
      (b.compute.instances = 1 ∨ b.compute.instances = 2) :=
  c2_instance_count "gcp" "prod" false (Or.inr rfl) (Or.inr (Or.inr rfl))

/-- C3: for every provider in aws/gcp and tier in dev/staging/prod, the
`database` item has monthly charge exactly 0 and absent type when the flag is
off, and strictly positive monthly charge when the flag is on. -/
theorem c3_database_item (p t : String) (db : Bool)
    (hp : p = "aws" ∨ p = "gcp")
    (ht : t = "dev" ∨ t = "staging" ∨ t = "prod") :
    ∃ b, estimate p t db = Except.ok b ∧
      (db = false → b.database.monthly = 0 ∧ b.database.type = none) ∧
      (db = true → 0 < b.database.monthly) := by
  rcases hp with rfl | rfl <;> rcases ht with rfl | rfl | rfl <;> cases db <;>
    exact ⟨_, rfl, by norm_num [estimate_aws_cost, estimate_gcp_cost]⟩

/-- Witness for C3 at (aws, staging, db enabled). -/
theorem c3_database_item_witness :
    ∃ b, estimate "aws" "staging" true = Except.ok b ∧
      (true = false → b.database.monthly = 0 ∧ b.database.type = none) ∧
      (true = true → 0 < b.database.monthly) :=
  c3_database_item "aws" "staging" true (Or.inl rfl) (Or.inr (Or.inl rfl))

/-- C5: the concrete scenario estimate(gcp, prod, db enabled) with no live
price source: region us-west1, two n1-standard-2 instances at 0.095 hourly
(monthly 138.70), 80 GB storage at monthly 13.60, data transfer 10,
database db-g1-small at 0.025 hourly (monthly 18.25), total monthly 180.55. -/
theorem c5_gcp_prod_db_scenario :
    get_region "gcp" "prod" = "us-west1" ∧
    estimate "gcp" "prod" true = Except.ok
      { compute := { instances := 2, type := "n1-standard-2",
                     hourly := 0.095, monthly := 138.70 }
        storage := { gb := 80, monthly := 13.60 }
        data_transfer := { monthly := 10 }
        database := { enabled := true, type := some "db-g1-small",
                      monthly := 18.25 }
        total_monthly := 180.55
        total_yearly := 2166.60 } := by
  refine ⟨rfl, ?_⟩
  have h : estimate "gcp" "prod" true = Except.ok (estimate_gcp_cost "prod" true) := rfl
  rw [h]
  norm_num [estimate_gcp_cost]

/-- C6: for every provider in aws/gcp and tier in dev/staging/prod, enabling
the database strictly increases `total_monthly` over the identical request
with the database disabled. -/
theorem c6_db_strictly_increases_total (p t : String)
    (hp : p = "aws" ∨ p = "gcp")
    (ht : t = "dev" ∨ t = "staging" ∨ t = "prod") :
    ∃ b0 b1, estimate p t false = Except.ok b0 ∧
      estimate p t true = Except.ok b1 ∧
      b0.total_monthly < b1.total_monthly := by
  rcases hp with rfl | rfl <;> rcases ht with rfl | rfl | rfl <;>
    exact ⟨_, _, rfl, rfl, by norm_num [estimate_aws_cost, estimate_gcp_cost]⟩

/-- Witness for C6 at (aws, prod). -/
theorem c6_db_strictly_increases_total_witness :
    ∃ b0 b1, estimate "aws" "prod" false = Except.ok b0 ∧
      estimate "aws" "prod" true = Except.ok b1 ∧
      b0.total_monthly < b1.total_monthly :=
  c6_db_strictly_increases_total "aws" "prod" (Or.inl rfl) (Or.inr (Or.inr rfl))

/-- C7: for every provider string whose normalized form is outside aws/gcp,
`estimate` fails with the unsupported-provider error naming the offending
(normalized) provider value, and never returns a breakdown. -/
theorem c7_unsupported_provider (p t : String) (db : Bool)
    (h1 : pyLower p ≠ "aws") (h2 : pyLower p ≠ "gcp") :
    estimate p t db =
      Except.error ("Unsupported cloud provider: " ++ pyLower p) := by
  unfold estimate estimate_core
  rw [if_neg h1, if_neg h2]

/-- Witness for C7 at provider azure. -/
theorem c7_unsupported_provider_witness :
    estimate "azure" "dev" false =
      Except.error ("Unsupported cloud provider: " ++ pyLower "azure") :=
  c7_unsupported_provider "azure" "dev" false (by decide) (by decide)

/-- C8: for every provider in aws/gcp, tier in dev/staging/prod and database
flag, the storage item reports 30 GB per instance plus a 20 GB increment
exactly when the database is enabled; the storage charge carries the matching
per-provider rates, and the extra 20 GB appears exactly when the database
monthly charge is positive (both driven by the single flag). -/
theorem c8_storage_breakdown (p t : String) (db : Bool)
    (hp : p = "aws" ∨ p = "gcp")
    (ht : t = "dev" ∨ t = "staging" ∨ t = "prod") :
    ∃ b, estimate p t db = Except.ok b ∧
      b.storage.gb = 30 * b.compute.instances + (if db then 20 else 0) ∧
      b.storage.monthly =
        ((30 * b.compute.instances : Nat) : ℚ) *
            (if p = "aws" then 0.10 else 0.17) +
          (if db then 20 * (if p = "aws" then 0.115 else 0.17) else 0) ∧
      ((0 : ℚ) < b.database.monthly ↔ db = true) := by
  rcases hp with rfl | rfl <;> rcases ht with rfl | rfl | rfl <;> cases db <;>
    exact ⟨_, rfl, by norm_num [estimate_aws_cost, estimate_gcp_cost]⟩

/-- Witness for C8 at (gcp, dev, db enabled). -/
theorem c8_storage_breakdown_witness :
    ∃ b, estimate "gcp" "dev" true = Except.ok b ∧
      b.storage.gb = 30 * b.compute.instances + (if true then 20 else 0) ∧
      b.storage.monthly =
        ((30 * b.compute.instances : Nat) : ℚ) *
            (if ("gcp" : String) = "aws" then 0.10 else 0.17) +
          (if true then 20 * (if ("gcp" : String) = "aws" then 0.115 else 0.17) else 0) ∧
      ((0 : ℚ) < b.database.monthly ↔ true = true) :=
  c8_storage_breakdown "gcp" "dev" true (Or.inr rfl) (Or.inl rfl)

/-- C4 counterexample: the claim that the fallback default is always
0.05 (compute) / 0.017 (database) fails for GCP.  The identifier t3.medium
is absent from the GCP table, yet the resolved price is the GCP compute
default 0.0475, not 0.05; likewise db.t3.micro is absent and the resolved
database price is 0.015, not 0.017. -/
theorem c4_fixed_default_counterexample :
    GCP_PRICING_FALLBACK "t3.medium" = none ∧
    resolve_fallback_price "gcp" ResourceKind.compute "t3.medium" "us-east1" = 0.0475 ∧
    resolve_fallback_price "gcp" ResourceKind.compute "t3.medium" "us-east1" ≠ 0.05 ∧
    GCP_PRICING_FALLBACK "db.t3.micro" = none ∧
    resolve_fallback_price "gcp" ResourceKind.database "db.t3.micro" "us-east1" = 0.015 ∧
    resolve_fallback_price "gcp" ResourceKind.database "db.t3.micro" "us-east1" ≠ 0.017 := by
  have hc : resolve_fallback_price "gcp" ResourceKind.compute "t3.medium" "us-east1"
      = 0.0475 := rfl
  have hd : resolve_fallback_price "gcp" ResourceKind.database "db.t3.micro" "us-east1"
      = 0.015 := rfl
  refine ⟨rfl, hc, ?_, rfl, hd, ?_⟩
  · rw [hc]
    norm_num
  · rw [hd]
    norm_num

/-- C4 amended: when the type identifier is absent from the provider's
static price table, or the region is absent from the identifier's entry, the
resolved fallback hourly price is the fixed per-provider default hard-coded
at the call site: 0.05 (compute) and 0.017 (database) for AWS, but 0.0475
(compute) and 0.015 (database) for GCP. -/
theorem c4_fallback_default_amended (cloud : String) (k : ResourceKind)
    (ty region : String)
    (hc : cloud = "aws" ∨ cloud = "gcp")
    (habs : fallback_table cloud ty = none ∨
      ∃ entry, fallback_table cloud ty = some entry ∧ entry region = none) :
    resolve_fallback_price cloud k ty region =
      if cloud = "aws"
      then (if k = ResourceKind.compute then 0.05 else 0.017)
      else (if k = ResourceKind.compute then 0.0475 else 0.015) := by
  have hd : resolve_fallback_price cloud k ty region = fallback_default cloud k := by
    unfold resolve_fallback_price dictGet2
    rcases habs with h | ⟨entry, h, hr⟩
    · rw [h]
    · rw [h]
      show (entry region).getD (fallback_default cloud k) = fallback_default cloud k
      rw [hr]
      rfl
  rw [hd]
  rcases hc with rfl | rfl <;> cases k <;> simp [fallback_default]

/-- Witness for the amended C4 at (gcp, compute, t3.medium, us-east1). -/
theorem c4_fallback_default_amended_witness :
    resolve_fallback_price "gcp" ResourceKind.compute "t3.medium" "us-east1" =
      if ("gcp" : String) = "aws"
      then (if ResourceKind.compute = ResourceKind.compute then 0.05 else 0.017)
      else (if ResourceKind.compute = ResourceKind.compute then 0.0475 else 0.015) :=
  c4_fallback_default_amended "gcp" ResourceKind.compute "t3.medium" "us-east1"
    (Or.inr rfl) (Or.inl rfl)

/-- C9: for either provider and any normalized tier string outside
dev/staging/prod, the sizing lookups fall back to the documented defaults
(region us-east-1, compute type t3.medium, database type db.t3.micro) and
`estimate` still returns a breakdown instead of failing. -/
theorem c9_unknown_tier_defaults (cloud env : String) (db : Bool)
    (hc : cloud = "aws" ∨ cloud = "gcp")
    (h1 : env ≠ "dev") (h2 : env ≠ "staging") (h3 : env ≠ "prod") :
    get_region cloud env = "us-east-1" ∧
    get_instance_type cloud env = "t3.medium" ∧
    get_db_instance_type cloud env = "db.t3.micro" ∧
    ∃ b, estimate_core cloud env db = Except.ok b := by
  rcases hc with rfl | rfl <;>
    exact ⟨by simp [get_region, region_map, h1, h2, h3],
      by simp [get_instance_type, instance_map, h1, h2, h3],
      by simp [get_db_instance_type, db_map, h1, h2, h3],
      ⟨_, rfl⟩⟩

/-- Witness for C9 at (aws, qa). -/
theorem c9_unknown_tier_defaults_witness :
    get_region "aws" "qa" = "us-east-1" ∧
    get_instance_type "aws" "qa" = "t3.medium" ∧
    get_db_instance_type "aws" "qa" = "db.t3.micro" ∧
    ∃ b, estimate_core "aws" "qa" false = Except.ok b :=
  c9_unknown_tier_defaults "aws" "qa" false (Or.inl rfl)
    (by decide) (by decide) (by decide)

/-- C10: `estimate` is case-insensitive in both string inputs: any provider
and environment strings produce the same result (breakdown or error) as
their lowercased forms; in particular the inputs AWS and Prod are accepted
exactly like aws and prod. -/
theorem c10_case_insensitive (p e : String) (db : Bool) :
    estimate p e db = estimate (pyLower p) (pyLower e) db ∧
    ∃ b, estimate "AWS" "Prod" db = Except.ok b ∧
      estimate "aws" "prod" db = Except.ok b := by
  constructor
  · show estimate_core (pyLower p) (pyLower e) db =
      estimate_core (pyLower (pyLower p)) (pyLower (pyLower e)) db
    rw [pyLower_idem, pyLower_idem]
  · exact ⟨_, rfl, rfl⟩
